import Mathlib

/-!
Verification of the cognitive-memory intelligence pipeline
(`app/memory_engine.py`, `app/database.py`, `app/api.py`).

The Python functions are shallowly embedded as executable Lean
definitions: dictionaries become structures, `Optional`/nullable columns
become `Option`, floats become exact rationals (`ℚ`), and the SQL upsert
clauses become pure state-transition functions on row values.
-/

namespace CognitiveMemory

/-- Python's `needle in haystack` substring test, on the character lists
of the two strings. -/
def strContains (s pat : String) : Bool :=
  decide (pat.data <:+: s.data)

/-- Python's `str.lower()` (ASCII case folding, which is all the source
keywords need). -/
def lowerStr (s : String) : String :=
  String.mk (s.data.map Char.toLower)

/-- The ordered keyword taxonomy of `IntelligenceEngine._classify_pattern`
(`memory_engine.py` lines 440-447).  Python dict literals preserve
insertion order, so iteration visits the categories in exactly this
order. -/
def classifications : List (String × List String) :=
  [ ("database",     ["database", "query", "sql", "index", "postgres"]),
    ("performance",  ["optimize", "slow", "performance", "speed", "latency"]),
    ("architecture", ["architecture", "design", "structure", "pattern"]),
    ("scaling",      ["scale", "growth", "load", "traffic", "capacity"]),
    ("caching",      ["cache", "redis", "memcache", "cdn"]),
    ("api",          ["api", "endpoint", "rest", "graphql", "http"]) ]

/-- `IntelligenceEngine._classify_pattern` (`memory_engine.py` lines
436-453): lowercase the context, walk the taxonomy in order, return the
first category one of whose keywords occurs in the context, else
`"general"`. -/
def classify_pattern (context : String) : String :=
  let c := lowerStr context
  match classifications.find? (fun ck => ck.2.any (fun kw => strContains c kw)) with
  | some ck => ck.1
  | none => "general"

example : classify_pattern "optimize database queries with slow performance" = "database" := by decide

/-- A row returned by the store's `find_similar_patterns` function (the
fields `memory_engine.py` reads from a matched pattern).  SQL-nullable
`learned_optimization` is an `Option`; floats are exact rationals. -/
structure Pattern where
  pattern_type : String
  prediction_accuracy : ℚ
  learned_optimization : Option String
  similarity_score : ℚ
  occurrences : Nat
  future_impact_score : ℚ
deriving DecidableEq, Repr

/-- A row returned by `CognitiveDatabase.get_cached_solution`
(`database.py` line 274 RETURNING clause).  `optimal_solution` and
`performance_metrics` are stored JSON payloads, modelled as opaque
strings. -/
structure CachedSolution where
  optimal_solution : String
  performance_metrics : String
  effectiveness_score : ℚ
deriving DecidableEq, Repr

/-- A row returned by the store's `predict_cascade` function (the fields
`memory_engine.py` reads from a cascade effect). -/
structure Cascade where
  level : Int
  effect : String
  probability : ℚ
  cumulative_confidence : ℚ
deriving DecidableEq, Repr

/-- One recommendation dict built by
`IntelligenceEngine._analyze_and_solve`.  Each branch attaches one extra
informational key beside `area` and `action`; `extra_key`/`extra_val`
hold that pair. -/
structure Recommendation where
  area : String
  action : String
  extra_key : String
  extra_val : String
deriving DecidableEq, Repr

/-- The `concepts` dict of `IntelligenceEngine._analyze_and_solve`
(`memory_engine.py` lines 196-201). -/
structure AnalysisConcepts where
  has_performance : Bool
  has_scale : Bool
  has_architecture : Bool
  has_database : Bool
deriving DecidableEq, Repr

/-- The `immediate_action` field of the analysis result:
`recommendations[0]` when the list is non-empty, else the fixed
fallback dict `\x7b'action': 'Provide more context for better analysis'\x7d`. -/
inductive ImmediateAction where
  | first (r : Recommendation)
  | fallback (action : String)
deriving DecidableEq, Repr

/-- Return value of `IntelligenceEngine._analyze_and_solve`. -/
structure AnalysisResult where
  analysis : AnalysisConcepts
  recommendations : List Recommendation
  immediate_action : ImmediateAction
deriving DecidableEq, Repr

/-- `IntelligenceEngine._analyze_and_solve` (`memory_engine.py` lines
190-230): detect signal words in the lowercased context, then append a
recommendation per detected performance / scale / database concept (the
source has no appending branch for `has_architecture`). -/
def analyze_and_solve (context : String) : AnalysisResult :=
  let c := lowerStr context
  let concepts : AnalysisConcepts :=
    { has_performance := ["slow", "optimize", "performance", "speed"].any (fun k => strContains c k),
      has_scale := ["scale", "growth", "load", "traffic"].any (fun k => strContains c k),
      has_architecture := ["architecture", "design", "structure"].any (fun k => strContains c k),
      has_database := ["database", "query", "sql", "index"].any (fun k => strContains c k) }
  let recommendations : List Recommendation :=
    (if concepts.has_performance then
      [{ area := "performance",
         action := "Profile code, identify bottlenecks, implement caching",
         extra_key := "complexity",
         extra_val := "O(1) cache access vs O(n) repeated computation" }] else []) ++
    (if concepts.has_scale then
      [{ area := "scalability",
         action := "Implement horizontal scaling, load balancing, async processing",
         extra_key := "expected_impact",
         extra_val := "10x capacity increase" }] else []) ++
    (if concepts.has_database then
      [{ area := "database",
         action := "Add indexes, optimize queries, consider read replicas",
         extra_key := "expected_improvement",
         extra_val := "3-10x query performance" }] else [])
  { analysis := concepts,
    recommendations := recommendations,
    immediate_action :=
      match recommendations with
      | r :: _ => ImmediateAction.first r
      | [] => ImmediateAction.fallback "Provide more context for better analysis" }

/-- The `solution` value of a direct solution: the cache branch returns
the cached JSON payload verbatim, the pattern branch returns the
pattern's (nullable) `learned_optimization`, the analysis branch returns
the structured analysis result. -/
inductive SolutionValue where
  | fromCache (payload : String)
  | fromPattern (opt : Option String)
  | fromAnalysis (a : AnalysisResult)
deriving DecidableEq, Repr

/-- Return value of `IntelligenceEngine._compute_optimal_solution`.
`pattern_type`, `performance` and `note` are only present on some
branches, hence `Option`. -/
structure DirectSolution where
  approach : String
  solution : SolutionValue
  source : String
  confidence : ℚ
  pattern_type : Option String
  performance : Option String
  note : Option String
deriving DecidableEq, Repr

/-- `IntelligenceEngine._compute_optimal_solution` (`memory_engine.py`
lines 153-188): cache hit first, else top pattern with accuracy above
0.7, else keyword analysis.  A cached row always carries its three
returned columns, so Python's truthiness test `if cached_solution:`
is exactly `Option.isSome`. -/
def compute_optimal_solution
    (input_context : String)
    (patterns : List Pattern)
    (cached_solution : Option CachedSolution) : DirectSolution :=
  match cached_solution with
  | some c =>
      { approach := "cached_optimal",
        solution := SolutionValue.fromCache c.optimal_solution,
        source := "optimization_cache",
        confidence := 0.95,
        pattern_type := none,
        performance := some c.performance_metrics,
        note := none }
  | none =>
      match patterns with
      | best :: _ =>
          if best.prediction_accuracy > 0.7 then
            { approach := "pattern_based",
              solution := SolutionValue.fromPattern best.learned_optimization,
              source := "learned_patterns",
              confidence := best.prediction_accuracy,
              pattern_type := some best.pattern_type,
              performance := none,
              note := none }
          else
            { approach := "analytical",
              solution := SolutionValue.fromAnalysis (analyze_and_solve input_context),
              source := "direct_analysis",
              confidence := 0.6,
              pattern_type := none,
              performance := none,
              note := some "No cached solution or high-confidence pattern found. Building new solution." }
      | [] =>
          { approach := "analytical",
            solution := SolutionValue.fromAnalysis (analyze_and_solve input_context),
            source := "direct_analysis",
            confidence := 0.6,
            pattern_type := none,
            performance := none,
            note := some "No cached solution or high-confidence pattern found. Building new solution." }

/-- One entry of the `identified_risks` list built by
`IntelligenceEngine._assess_risks`.  The two risk dict shapes of the
source become two constructors; the f-string description of a cascade
risk interpolates the probability, so the probability is carried here in
place of the formatted message. -/
inductive Risk where
  | cascade_uncertainty (level : Int) (probability : ℚ) (severity : String)
  | pattern_uncertainty (low_count : Nat) (severity : String) (recommendation : String)
deriving DecidableEq, Repr

/-- Whether a risk entry is a `cascade_uncertainty` dict. -/
def Risk.isCascade : Risk → Bool
  | Risk.cascade_uncertainty _ _ _ => true
  | Risk.pattern_uncertainty _ _ _ => false

/-- Whether a risk entry is a `pattern_uncertainty` dict. -/
def Risk.isPatternRisk : Risk → Bool
  | Risk.cascade_uncertainty _ _ _ => false
  | Risk.pattern_uncertainty _ _ _ => true

/-- Return value of `IntelligenceEngine._assess_risks`. -/
structure RiskMatrix where
  risk_score : ℚ
  risk_level : String
  identified_risks : List Risk
  mitigation : String
deriving DecidableEq, Repr

/-- `IntelligenceEngine._assess_risks` (`memory_engine.py` lines
269-307): one cascade risk per cascade entry with probability below 0.5,
one pattern risk when some pattern has accuracy below 0.6; the score is
`0.2 * count` (0.1 when no risks), reported capped at 1.0, and the level
thresholds are applied to the uncapped score. -/
def assess_risks (cascades : List Cascade) (patterns : List Pattern) : RiskMatrix :=
  let cascadeRisks :=
    (cascades.filter (fun c => decide (c.probability < 0.5))).map
      (fun c => Risk.cascade_uncertainty c.level c.probability "medium")
  let low_accuracy_patterns := patterns.filter (fun p => decide (p.prediction_accuracy < 0.6))
  let risks := cascadeRisks ++
    (if low_accuracy_patterns.isEmpty then []
     else [Risk.pattern_uncertainty low_accuracy_patterns.length "low" "Validate assumptions manually"])
  let risk_score : ℚ := if risks.isEmpty then 0.1 else (risks.length : ℚ) * 0.2
  { risk_score := min risk_score 1,
    risk_level := if risk_score > 0.7 then "high" else if risk_score > 0.4 then "medium" else "low",
    identified_risks := risks,
    mitigation :=
      if risks.isEmpty then "Proceed with confidence"
      else "Test incrementally, monitor metrics, prepare rollback plan" }

/-- A `pattern_recognition` row, as read and written by
`CognitiveDatabase.store_pattern`.  `last_seen` is an abstract clock
value (the row's `NOW()`). -/
structure PatternRow where
  pattern_type : String
  pattern_signature : String
  occurrences : Nat
  learned_optimization : Option String
  last_seen : Nat
deriving DecidableEq, Repr

/-- The `ON CONFLICT ... DO UPDATE` clause of
`CognitiveDatabase.store_pattern` (`database.py` lines 171-174) applied
to the existing conflicting row: `occurrences = occurrences + 1`,
`learned_optimization = COALESCE(EXCLUDED.learned_optimization,
pattern_recognition.learned_optimization)`, `last_seen = NOW()`.
`COALESCE(a, b)` on nullable text is `Option.orElse`. -/
def store_pattern_on_conflict (row : PatternRow) (new_optimization : Option String)
    (now : Nat) : PatternRow :=
  { row with
    occurrences := row.occurrences + 1,
    learned_optimization := new_optimization.orElse (fun _ => row.learned_optimization),
    last_seen := now }

/-- One key/value pair of a problem-signature dict.  The engine only
ever builds flat string-valued signatures (for the solution cache,
`\x7b'context': ...\x7d`), so a signature is an association list with
distinct keys. -/
abbrev Signature := List (String × String)

/-- Comparison used to sort signature pairs by key, embedding
`json.dumps(..., sort_keys=True)`'s key ordering. -/
def keyLE (a b : String × String) : Prop := a.1 ≤ b.1

instance : DecidableRel keyLE := fun a b => inferInstanceAs (Decidable (a.1 ≤ b.1))

/-- Render one `"key": "value"` JSON member. -/
def renderPair (p : String × String) : String :=
  "\x22" ++ p.1 ++ "\x22: \x22" ++ p.2 ++ "\x22"

/-- `json.dumps(problem_signature, sort_keys=True)`: serialize the
signature with its keys sorted. -/
def dumps_sorted (sig : Signature) : String :=
  "\x7b" ++ String.intercalate ", " ((sig.insertionSort keyLE).map renderPair) ++ "\x7d"

/-- The cache key computed by `CognitiveDatabase.get_cached_solution`
(`database.py` lines 264-266): `sha256(dumps_sorted(sig))`.  The hash is
an arbitrary function `h` of the canonical serialization, passed in so
every property proved holds for the real SHA-256 in particular. -/
def get_cached_solution_key (h : String → String) (sig : Signature) : String :=
  h (dumps_sorted sig)

/-- The cache key computed by `CognitiveDatabase.cache_solution`
(`database.py` lines 286-288), textually the same computation as on
lookup. -/
def cache_solution_key (h : String → String) (sig : Signature) : String :=
  h (dumps_sorted sig)

/-- The error signature computed by `CognitiveDatabase.log_error` and
`CognitiveDatabase.get_error_solution` (`database.py` lines 324-326 and
353-355), the same content-addressing as the solution cache. -/
def error_signature_key (h : String → String) (sig : Signature) : String :=
  h (dumps_sorted sig)

/-- An `error_registry` row.  `solution` and `resolution_time_seconds`
are nullable columns. -/
structure ErrorRow where
  error_signature : String
  error_context : String
  solution : Option String
  occurrence_count : Nat
  resolution_time_seconds : Option Int
deriving DecidableEq, Repr

/-- `CognitiveDatabase.log_error` (`database.py` lines 317-349) as a
transition on the registry (a list of rows with distinct signatures):
insert a fresh row with `occurrence_count` 1, or on conflict increment
the count and keep `COALESCE(EXCLUDED.solution, stored.solution)`. -/
def log_error_upsert (h : String → String) (registry : List ErrorRow)
    (error_context : Signature) (solution : Option String)
    (resolution_time : Option Int) : List ErrorRow :=
  let sig := error_signature_key h error_context
  if registry.any (fun r => r.error_signature == sig) then
    registry.map (fun r =>
      if r.error_signature == sig then
        { r with
          occurrence_count := r.occurrence_count + 1,
          solution := solution.orElse (fun _ => r.solution) }
      else r)
  else
    registry ++ [{ error_signature := sig,
                   error_context := dumps_sorted error_context,
                   solution := solution,
                   occurrence_count := 1,
                   resolution_time_seconds := resolution_time }]

/-- `CognitiveDatabase.get_error_solution` (`database.py` lines
351-365): select the row whose signature matches AND whose solution is
not NULL; return its `(solution, occurrence_count,
resolution_time_seconds)` columns, or `none` when no such row exists.
The miss is an ordinary `none` value, not an exception. -/
def get_error_solution (h : String → String) (registry : List ErrorRow)
    (error_context : Signature) : Option (Option String × Nat × Option Int) :=
  let sig := error_signature_key h error_context
  (registry.find? (fun r => r.error_signature == sig && r.solution.isSome)).map
    (fun r => (r.solution, r.occurrence_count, r.resolution_time_seconds))

/-- One entry of the engine's rolling context window:
`\x7b'data': input_data, 'timestamp': ...\x7d` (`memory_engine.py` lines
457-460).  The input payload and the clock are abstract. -/
structure ContextEntry (α : Type) where
  data : α
  timestamp : Nat
deriving DecidableEq, Repr

/-- `IntelligenceEngine.max_context_size` (`memory_engine.py` line 21). -/
def max_context_size : Nat := 50

/-- `IntelligenceEngine._add_to_context` (`memory_engine.py` lines
455-464): append the wrapped entry, then `pop(0)` (drop the oldest)
when the window exceeds `max_context_size`. -/
def add_to_context {α : Type} (window : List (ContextEntry α)) (input_data : α)
    (now : Nat) : List (ContextEntry α) :=
  let w := window ++ [{ data := input_data, timestamp := now }]
  if w.length > max_context_size then w.drop 1 else w

/-- The fields of a `/process` request body the pipeline reads
(`api.py` `InteractionRequest`, serialized with `exclude_none`, so an
omitted decision and an absent key coincide as `none`). -/
structure Input where
  context : String
  decision : Option String
  complexity : Option String
deriving DecidableEq, Repr

/-- Python truthiness of `input_data.get('decision')`: the key is absent
(`none`) or holds a string, and the empty string is falsy. -/
def decisionTruthy : Option String → Bool
  | none => false
  | some s => !(s == "")

/-- The `intelligence_metrics` sub-dict of a response
(`memory_engine.py` lines 139-145); the wall-clock timestamp field is
elided. -/
structure IntelligenceMetrics where
  delta : ℚ
  patterns_matched : Nat
  cache_hit : Bool
  prediction_depth : Nat
deriving DecidableEq, Repr

/-- The response fields the claims under verification depend on (the
remaining fields of `_generate_response` — future implications,
optimization path, pattern insights, brutal honesty — are further pure
projections of the same arguments and are elided). -/
structure Response where
  direct_solution : DirectSolution
  risk_matrix : RiskMatrix
  intelligence_metrics : IntelligenceMetrics
deriving DecidableEq, Repr

/-- `IntelligenceEngine._generate_response` (`memory_engine.py` lines
101-151), restricted to the retained fields:
`patterns_matched = len(patterns)`, `cache_hit = cached is not None`,
`prediction_depth = len(cascades)`. -/
def generate_response (input_data : Input) (patterns : List Pattern)
    (cached_solution : Option CachedSolution) (cascades : List Cascade)
    (intelligence_delta : ℚ) : Response :=
  { direct_solution := compute_optimal_solution input_data.context patterns cached_solution,
    risk_matrix := assess_risks cascades patterns,
    intelligence_metrics :=
      { delta := intelligence_delta,
        patterns_matched := patterns.length,
        cache_hit := cached_solution.isSome,
        prediction_depth := cascades.length } }

/-- The successive side-effecting steps of
`IntelligenceEngine.process_input` and `_learn_from_interaction`, in
program order. -/
inductive PStep where
  | add_context
  | store_interaction
  | match_patterns
  | cache_lookup
  | predict_cascades
  | synthesize
  | learn_pattern
  | cache_store
deriving DecidableEq, Repr

/-- Observable outcome of one `process_input` run: the ordered step
trace, the cascade list used for synthesis, the depth handed to the
store's cascade predictor (`none` when the predictor was never
invoked), the signature under which the learning step re-cached the
direct solution (`none` when it did not), and the response. -/
structure ProcessOutcome where
  trace : List PStep
  cascades : List Cascade
  predictor_depth : Option Int
  cache_store_signature : Option Signature
  response : Response
deriving Repr

/-- `IntelligenceEngine.process_input` (`memory_engine.py` lines
38-95) together with `_learn_from_interaction` (lines 400-434), as a
pure function of the request and of the store answers: `patterns` is
the `find_patterns` result, `cached_solution` the `get_cached_solution`
result, `predictor d` what `predict_cascade_effects` would return at
depth `d`, `intelligence_delta` the stored interaction's delta.  The
predictor runs only under `predict_future and input_data.get
('decision')`; learning always runs after synthesis and re-caches the
direct solution under `\x7b'context': context\x7d` exactly when
`patterns_matched > 0`. -/
def process_input (input_data : Input) (predict_future : Bool) (cascade_depth : Int)
    (patterns : List Pattern) (cached_solution : Option CachedSolution)
    (predictor : Int → List Cascade) (intelligence_delta : ℚ) : ProcessOutcome :=
  let invoke := predict_future && decisionTruthy input_data.decision
  let cascades := if invoke then predictor cascade_depth else []
  let response := generate_response input_data patterns cached_solution cascades intelligence_delta
  let recache := response.intelligence_metrics.patterns_matched > 0
  { trace :=
      [PStep.add_context, PStep.store_interaction, PStep.match_patterns, PStep.cache_lookup] ++
      (if invoke then [PStep.predict_cascades] else []) ++
      [PStep.synthesize, PStep.learn_pattern] ++
      (if recache then [PStep.cache_store] else []),
    cascades := cascades,
    predictor_depth := if invoke then some cascade_depth else none,
    cache_store_signature :=
      if recache then some [("context", input_data.context)] else none,
    response := response }

/-- The `ProcessingConfig` bounds of `api.py` (lines 46-50):
`cascade_depth: int = Field(5, ge=1, le=10)`.  Pydantic rejects a
request whose depth is outside the bounds before the pipeline runs. -/
def cascade_depth_ok (d : Int) : Bool := decide (1 ≤ d) && decide (d ≤ 10)

/-- The `/process` endpoint boundary (`api.py` lines 129-152): validate
the configured cascade depth, then run the pipeline; an invalid depth
yields a rejection (`none`), never a pipeline run. -/
def process_endpoint (input_data : Input) (predict_future : Bool) (cascade_depth : Int)
    (patterns : List Pattern) (cached_solution : Option CachedSolution)
    (predictor : Int → List Cascade) (intelligence_delta : ℚ) : Option ProcessOutcome :=
  if cascade_depth_ok cascade_depth then
    some (process_input input_data predict_future cascade_depth patterns cached_solution
      predictor intelligence_delta)
  else
    none

/-!  Theorems settling the claims. -/

/-- Claim C1: the synthesized direct solution follows the three-way
precedence — a cache hit is returned verbatim with confidence exactly
0.95 and the cache source label; otherwise a non-empty pattern list
whose top pattern has `prediction_accuracy > 0.7` yields that pattern's
`learned_optimization` with confidence equal to that accuracy and the
pattern source label; otherwise the keyword-analysis fallback with
confidence exactly 0.6 and the analysis source label. -/
theorem compute_optimal_solution_precedence
    (ctx : String) (patterns : List Pattern) (cached : Option CachedSolution) :
    (∀ c, cached = some c →
      (compute_optimal_solution ctx patterns cached).solution = SolutionValue.fromCache c.optimal_solution ∧
      (compute_optimal_solution ctx patterns cached).confidence = 0.95 ∧
      (compute_optimal_solution ctx patterns cached).source = "optimization_cache") ∧
    (∀ best rest, cached = none → patterns = best :: rest → best.prediction_accuracy > 0.7 →
      (compute_optimal_solution ctx patterns cached).solution = SolutionValue.fromPattern best.learned_optimization ∧
      (compute_optimal_solution ctx patterns cached).confidence = best.prediction_accuracy ∧
      (compute_optimal_solution ctx patterns cached).source = "learned_patterns") ∧
    (cached = none → (∀ best rest, patterns = best :: rest → ¬ best.prediction_accuracy > 0.7) →
      (compute_optimal_solution ctx patterns cached).solution = SolutionValue.fromAnalysis (analyze_and_solve ctx) ∧
      (compute_optimal_solution ctx patterns cached).confidence = 0.6 ∧
      (compute_optimal_solution ctx patterns cached).source = "direct_analysis") := by
  refine ⟨?_, ?_, ?_⟩
  · rintro c rfl
    exact ⟨rfl, rfl, rfl⟩
  · rintro best rest rfl rfl hacc
    simp [compute_optimal_solution, if_pos hacc]
  · rintro rfl hno
    cases patterns with
    | nil => exact ⟨rfl, rfl, rfl⟩
    | cons best rest =>
      simp [compute_optimal_solution, if_neg (hno best rest rfl)]

/-- Claim C1 witness: the cache branch evaluated at a concrete input. -/
theorem compute_optimal_solution_precedence_witness :
    (compute_optimal_solution "ctx" []
      (some { optimal_solution := "S", performance_metrics := "M", effectiveness_score := 0.8 })).solution
        = SolutionValue.fromCache "S" ∧
    (compute_optimal_solution "ctx" []
      (some { optimal_solution := "S", performance_metrics := "M", effectiveness_score := 0.8 })).confidence = 0.95 ∧
    (compute_optimal_solution "ctx" []
      (some { optimal_solution := "S", performance_metrics := "M", effectiveness_score := 0.8 })).source
        = "optimization_cache" :=
  (compute_optimal_solution_precedence "ctx" []
    (some { optimal_solution := "S", performance_metrics := "M", effectiveness_score := 0.8 })).1 _ rfl

/-- Claim C3 counterexample: a conflicting `store_pattern` call that
supplies a different non-empty optimization replaces the stored text
(`COALESCE(EXCLUDED.learned_optimization, stored)` prefers the NEW
value), so the stored text is not left unchanged as claimed. -/
theorem store_pattern_counterexample :
    (store_pattern_on_conflict
      { pattern_type := "database", pattern_signature := "sig", occurrences := 3,
        learned_optimization := some "keep old", last_seen := 0 }
      (some "new text") 7).learned_optimization ≠ some "keep old" := by
  decide

/-- Claim C3 amended: the upsert increments `occurrences`, refreshes
`last_seen`, and takes the NEW optimization whenever one is supplied,
keeping the stored text only when the new call supplies none. -/
theorem store_pattern_on_conflict_spec (row : PatternRow) (new_optimization : Option String)
    (now : Nat) :
    (store_pattern_on_conflict row new_optimization now).occurrences = row.occurrences + 1 ∧
    (store_pattern_on_conflict row new_optimization now).last_seen = now ∧
    (store_pattern_on_conflict row new_optimization now).learned_optimization =
      (match new_optimization with
       | some s => some s
       | none => row.learned_optimization) ∧
    (store_pattern_on_conflict row new_optimization now).pattern_type = row.pattern_type ∧
    (store_pattern_on_conflict row new_optimization now).pattern_signature = row.pattern_signature := by
  refine ⟨rfl, rfl, ?_, rfl, rfl⟩
  cases new_optimization <;> rfl

/-- Claim C6: classification walks the fixed category order database,
performance, architecture, scaling, caching, api; the first category
with a matching keyword wins, `"general"` is returned when no keyword
matches, and the scenario context classifies as `"database"`. -/
theorem classify_pattern_spec :
    classifications.map Prod.fst =
      ["database", "performance", "architecture", "scaling", "caching", "api"] ∧
    classify_pattern "optimize database queries with slow performance" = "database" ∧
    (∀ ctx, strContains (lowerStr ctx) "database" = true → classify_pattern ctx = "database") ∧
    (∀ ctx, (classifications.all fun ck => ck.2.all fun kw => !(strContains (lowerStr ctx) kw)) = true →
      classify_pattern ctx = "general") := by
  refine ⟨rfl, by decide, ?_, ?_⟩
  · intro ctx hdb
    simp only [classify_pattern, classifications]
    rw [List.find?_cons_of_pos]
    · simp [List.any, hdb]
  · intro ctx hall
    simp only [List.all_eq_true, Bool.not_eq_true'] at hall
    simp only [classify_pattern]
    rw [List.find?_eq_none.mpr]
    intro ck hck
    simp only [List.any_eq_true, not_exists, not_and, Bool.not_eq_true]
    intro kw hkw
    exact hall ck hck kw hkw

/-- Claim C6 witness: the priority and default branches evaluated at
concrete contexts. -/
theorem classify_pattern_spec_witness :
    classify_pattern "tune the database now" = "database" ∧
    classify_pattern "hello world" = "general" :=
  ⟨classify_pattern_spec.2.2.1 "tune the database now" (by decide),
   classify_pattern_spec.2.2.2 "hello world" (by decide)⟩

/-- Claim C8 counterexample: a context carrying only architecture
signal words sets the `has_architecture` analysis flag but yields an
empty recommendation list — the source appends recommendations only for
the performance, scale and database concepts, never for architecture. -/
theorem analyze_and_solve_counterexample :
    (analyze_and_solve "architecture with good design and structure").analysis.has_architecture = true ∧
    (analyze_and_solve "architecture with good design and structure").recommendations = [] := by
  constructor <;> decide

/-- Claim C8 amended: the fallback analysis emits exactly one
recommendation per detected performance / scale / database concept (in
that order), and never an architecture recommendation, even though
architecture signal words are detected in the analysis flags. -/
theorem analyze_and_solve_spec (context : String) :
    ((analyze_and_solve context).recommendations.map Recommendation.area =
      (if (analyze_and_solve context).analysis.has_performance then ["performance"] else []) ++
      (if (analyze_and_solve context).analysis.has_scale then ["scalability"] else []) ++
      (if (analyze_and_solve context).analysis.has_database then ["database"] else [])) ∧
    ((analyze_and_solve context).recommendations.filter
      (fun rec => rec.area == "architecture") = []) := by
  simp only [analyze_and_solve]
  constructor
  · split <;> split <;> split <;> simp [Recommendation.area]
  · split <;> split <;> split <;> simp [Recommendation.area]

/-- One append keeps the window within capacity. -/
theorem add_to_context_length_le {α : Type} (window : List (ContextEntry α)) (x : α)
    (now : Nat) (hw : window.length ≤ max_context_size) :
    (add_to_context window x now).length ≤ max_context_size := by
  simp only [add_to_context]
  split
  · simpa using hw
  · next hgt =>
    simp only [not_lt, List.length_append, List.length_cons, List.length_nil] at hgt ⊢
    omega

/-- Claim C9: starting empty, the recent-context buffer never exceeds
its capacity of 50 entries under any sequence of appends, and once at
capacity each append drops exactly the oldest entry, preserving FIFO
order. -/
theorem context_window_spec :
    (∀ (α : Type) (inputs : List (α × Nat)),
      (inputs.foldl (fun w xn => add_to_context w xn.1 xn.2)
        ([] : List (ContextEntry α))).length ≤ max_context_size) ∧
    (∀ (α : Type) (window : List (ContextEntry α)) (x : α) (now : Nat),
      window.length ≤ max_context_size →
      (add_to_context window x now).length ≤ max_context_size) ∧
    (∀ (α : Type) (window : List (ContextEntry α)) (x : α) (now : Nat),
      window.length = max_context_size →
      add_to_context window x now = window.drop 1 ++ [{ data := x, timestamp := now }]) := by
  refine ⟨?_, fun α w x n h => add_to_context_length_le w x n h, ?_⟩
  · intro α inputs
    suffices hgen : ∀ (w : List (ContextEntry α)), w.length ≤ max_context_size →
        (inputs.foldl (fun w xn => add_to_context w xn.1 xn.2) w).length ≤ max_context_size by
      exact hgen [] (by simp [max_context_size])
    induction inputs with
    | nil => intro w hw; simpa using hw
    | cons xn rest ih =>
      intro w hw
      exact ih _ (add_to_context_length_le w xn.1 xn.2 hw)
  · intro α window x now hlen
    simp only [add_to_context]
    rw [if_pos]
    · exact List.drop_append_of_le_length (by rw [hlen]; decide)
    · simp [hlen, max_context_size]

/-- Claim C9 witness: a window at capacity evicts its oldest entry. -/
theorem context_window_spec_witness :
    add_to_context (List.replicate 50 ({ data := 0, timestamp := 0 } : ContextEntry Nat)) 1 2 =
      (List.replicate 50 ({ data := 0, timestamp := 0 } : ContextEntry Nat)).drop 1 ++
        [{ data := 1, timestamp := 2 }] :=
  context_window_spec.2.2 Nat _ 1 2 (by simp [max_context_size])

/-- Claim C10: the error-solution lookup reports "no known solution"
(`none`) both when no row with the context's signature exists and when
the row exists with a NULL stored solution; in particular an error
logged without a solution into an empty registry is then reported as
having no known solution.  The lookup is a total function returning an
`Option` — a miss is the `none` value, not a raised error. -/
theorem get_error_solution_spec (h : String → String) (registry : List ErrorRow)
    (ctx : Signature) :
    ((∀ r ∈ registry, r.error_signature ≠ error_signature_key h ctx) →
      get_error_solution h registry ctx = none) ∧
    ((∀ r ∈ registry, r.error_signature = error_signature_key h ctx → r.solution = none) →
      get_error_solution h registry ctx = none) ∧
    (∀ rt : Option Int,
      get_error_solution h (log_error_upsert h [] ctx none rt) ctx = none) := by
  refine ⟨?_, ?_, ?_⟩
  · intro hmiss
    simp only [get_error_solution, Option.map_eq_none', List.find?_eq_none]
    intro r hr
    simp only [Bool.and_eq_true, beq_iff_eq, not_and]
    intro hsig
    exact absurd hsig (hmiss r hr)
  · intro hnull
    simp only [get_error_solution, Option.map_eq_none', List.find?_eq_none]
    intro r hr
    simp only [Bool.and_eq_true, beq_iff_eq, not_and]
    intro hsig
    simp [hnull r hr hsig]
  · intro rt
    simp [get_error_solution, log_error_upsert]

/-- Claim C10 witness: a registry holding one solution-less row for the
looked-up signature yields `none`. -/
theorem get_error_solution_spec_witness :
    get_error_solution id
      [{ error_signature := error_signature_key id [("context", "boom")],
         error_context := "c", solution := none, occurrence_count := 2,
         resolution_time_seconds := none }]
      [("context", "boom")] = none :=
  (get_error_solution_spec id _ [("context", "boom")]).2.1
    (by intro r hr hsig; simp at hr; simp [hr])

/-- Claim C4: the cascade predictor is skipped entirely (never invoked,
cascades empty) when prediction is disabled or no decision text is
supplied; learning always runs after synthesis, whatever the cache path
did; and the direct solution is re-cached under the request's context
exactly when at least one pattern matched. -/
theorem process_input_pipeline_spec (input_data : Input) (predict_future : Bool)
    (cascade_depth : Int) (patterns : List Pattern) (cached : Option CachedSolution)
    (predictor : Int → List Cascade) (delta : ℚ) :
    ((predict_future = false ∨ decisionTruthy input_data.decision = false) →
      PStep.predict_cascades ∉
          (process_input input_data predict_future cascade_depth patterns cached predictor delta).trace ∧
        (process_input input_data predict_future cascade_depth patterns cached predictor delta).cascades = [] ∧
        (process_input input_data predict_future cascade_depth patterns cached predictor delta).predictor_depth = none) ∧
    (List.Sublist [PStep.synthesize, PStep.learn_pattern]
      (process_input input_data predict_future cascade_depth patterns cached predictor delta).trace) ∧
    ((process_input input_data predict_future cascade_depth patterns cached predictor delta).cache_store_signature =
      if patterns.length > 0 then some [("context", input_data.context)] else none) ∧
    (PStep.cache_store ∈
        (process_input input_data predict_future cascade_depth patterns cached predictor delta).trace
      ↔ patterns ≠ []) := by
  refine ⟨?_, ?_, ?_, ?_⟩
  · intro hoff
    have hinv : (predict_future && decisionTruthy input_data.decision) = false := by
      rcases hoff with hoff | hoff <;> simp [hoff]
    refine ⟨?_, by simp [process_input, hinv], by simp [process_input, hinv]⟩
    cases patterns <;> simp [process_input, generate_response, hinv]
  · cases hinv : (predict_future && decisionTruthy input_data.decision) <;>
      cases patterns <;> simp [process_input, generate_response, hinv] <;> decide
  · cases patterns <;> simp [process_input, generate_response]
  · cases hinv : (predict_future && decisionTruthy input_data.decision) <;>
      cases patterns <;> simp [process_input, generate_response, hinv]

/-- Claim C4 witness: a request without decision text at a concrete
input skips the predictor. -/
theorem process_input_pipeline_spec_witness :
    PStep.predict_cascades ∉
        (process_input { context := "c", decision := none, complexity := none }
          true 5 [] none (fun _ => []) 0).trace ∧
      (process_input { context := "c", decision := none, complexity := none }
        true 5 [] none (fun _ => []) 0).cascades = [] ∧
      (process_input { context := "c", decision := none, complexity := none }
        true 5 [] none (fun _ => []) 0).predictor_depth = none :=
  (process_input_pipeline_spec { context := "c", decision := none, complexity := none }
    true 5 [] none (fun _ => []) 0).1 (Or.inr rfl)

/-- Claim C7: the server boundary rejects any cascade depth outside
1..10 before the pipeline runs, so whenever a request is processed the
depth handed to the cascade predictor lies within the documented bound;
the scenario depth 15 is rejected, never executed. -/
theorem cascade_depth_boundary_spec (input_data : Input) (predict_future : Bool)
    (d : Int) (patterns : List Pattern) (cached : Option CachedSolution)
    (predictor : Int → List Cascade) (delta : ℚ) :
    (∀ o, process_endpoint input_data predict_future d patterns cached predictor delta = some o →
      ∀ dp, o.predictor_depth = some dp → 1 ≤ dp ∧ dp ≤ 10) ∧
    (process_endpoint input_data predict_future 15 patterns cached predictor delta = none) := by
  constructor
  · intro o ho dp hdp
    simp only [process_endpoint] at ho
    by_cases hok : cascade_depth_ok d = true
    · rw [if_pos hok] at ho
      have hbounds : 1 ≤ d ∧ d ≤ 10 := by
        simpa [cascade_depth_ok] using hok
      obtain rfl : process_input input_data predict_future d patterns cached predictor delta = o :=
        Option.some.inj ho
      simp only [process_input] at hdp
      by_cases hinv : (predict_future && decisionTruthy input_data.decision) = true
      · rw [if_pos hinv] at hdp
        obtain rfl : d = dp := Option.some.inj hdp
        exact hbounds
      · rw [if_neg hinv] at hdp
        exact absurd hdp (Option.noConfusion)
    · rw [if_neg hok] at ho
      exact absurd ho (Option.noConfusion)
  · simp [process_endpoint, cascade_depth_ok]

/-- Claim C7 witness: an accepted request at depth 5 with decision text
reaches the predictor at a depth within bounds, and depth 15 is
rejected. -/
theorem cascade_depth_boundary_spec_witness :
    ((1 : Int) ≤ 5 ∧ (5 : Int) ≤ 10) ∧
    process_endpoint { context := "c", decision := some "go", complexity := none }
      true 15 [] none (fun _ => []) 0 = none :=
  ⟨(cascade_depth_boundary_spec { context := "c", decision := some "go", complexity := none }
      true 5 [] none (fun _ => []) 0).1 _ rfl 5 rfl,
   (cascade_depth_boundary_spec { context := "c", decision := some "go", complexity := none }
      true 0 [] none (fun _ => []) 0).2⟩

/-- Capping a score at 1 does not change whether it exceeds a
threshold below 1. -/
theorem min_one_gt_iff {c x : ℚ} (hc : c < 1) : c < min x 1 ↔ c < x := by
  rw [lt_min_iff]
  exact and_iff_left hc

/-- Characterization of the risk level produced from an uncapped score
`raw`, phrased against the reported capped score `min raw 1`. -/
theorem risk_level_spec_aux (raw : ℚ) :
    (((if raw > 0.7 then "high" else if raw > 0.4 then "medium" else "low") = "high") ↔
      min raw 1 > 0.7) ∧
    (((if raw > 0.7 then "high" else if raw > 0.4 then "medium" else "low") = "medium") ↔
      (min raw 1 > 0.4 ∧ min raw 1 ≤ 0.7)) ∧
    (((if raw > 0.7 then "high" else if raw > 0.4 then "medium" else "low") = "low") ↔
      min raw 1 ≤ 0.4) := by
  have h7 : ((0.7 : ℚ) < min raw 1) ↔ ((0.7 : ℚ) < raw) := min_one_gt_iff (by norm_num)
  have h4 : ((0.4 : ℚ) < min raw 1) ↔ ((0.4 : ℚ) < raw) := min_one_gt_iff (by norm_num)
  have hle7 : (min raw 1 ≤ (0.7 : ℚ)) ↔ (raw ≤ (0.7 : ℚ)) := by
    rw [← not_lt, ← not_lt]
    exact not_congr h7
  have hle4 : (min raw 1 ≤ (0.4 : ℚ)) ↔ (raw ≤ (0.4 : ℚ)) := by
    rw [← not_lt, ← not_lt]
    exact not_congr h4
  simp only [gt_iff_lt, h7, h4, hle7, hle4]
  split_ifs with hA hB
  · refine ⟨by simp [hA], ?_, ?_⟩
    · simp only [show ("high" = "medium") = False by simp, false_iff, not_and]
      intro _ hle
      exact absurd hA (not_lt.mpr hle)
    · simp only [show ("high" = "low") = False by simp, false_iff, not_le]
      linarith
  · refine ⟨?_, by simp [hB, not_lt.mp hA], ?_⟩
    · simp only [show ("medium" = "high") = False by simp, false_iff]
      exact hA
    · simp only [show ("medium" = "low") = False by simp, false_iff, not_le]
      linarith
  · refine ⟨?_, ?_, by simp [not_lt.mp hB]⟩
    · simp only [show ("low" = "high") = False by simp, false_iff]
      exact hA
    · simp only [show ("low" = "medium") = False by simp, false_iff, not_and]
      intro h4'
      exact absurd h4' hB

/-- Claim C5: the risk assessment yields one `cascade_uncertainty` risk
per cascade entry with probability below 0.5 (in order), exactly one
`pattern_uncertainty` risk when some pattern has accuracy below 0.6 and
none otherwise; the reported risk score is `0.2 ×` the number of risks
(0.1 with no risks), capped at 1.0; and the risk level is high above
0.7, medium above 0.4, low otherwise. -/
theorem assess_risks_spec (cascades : List Cascade) (patterns : List Pattern) :
    ((assess_risks cascades patterns).identified_risks.filter Risk.isCascade =
      (cascades.filter (fun c => decide (c.probability < 0.5))).map
        (fun c => Risk.cascade_uncertainty c.level c.probability "medium")) ∧
    ((assess_risks cascades patterns).identified_risks.countP Risk.isPatternRisk =
      if ∃ p ∈ patterns, p.prediction_accuracy < 0.6 then 1 else 0) ∧
    ((assess_risks cascades patterns).identified_risks = [] →
      (assess_risks cascades patterns).risk_score = 0.1) ∧
    ((assess_risks cascades patterns).identified_risks ≠ [] →
      (assess_risks cascades patterns).risk_score =
        min (((assess_risks cascades patterns).identified_risks.length : ℚ) * 0.2) 1) ∧
    ((assess_risks cascades patterns).risk_score ≤ 1) ∧
    ((assess_risks cascades patterns).risk_level = "high" ↔
      (assess_risks cascades patterns).risk_score > 0.7) ∧
    ((assess_risks cascades patterns).risk_level = "medium" ↔
      ((assess_risks cascades patterns).risk_score > 0.4 ∧
        (assess_risks cascades patterns).risk_score ≤ 0.7)) ∧
    ((assess_risks cascades patterns).risk_level = "low" ↔
      (assess_risks cascades patterns).risk_score ≤ 0.4) := by
  simp only [assess_risks]
  refine ⟨?_, ?_, ?_, ?_, ?_, ?_, ?_, ?_⟩
  · rw [List.filter_append]
    have hA : ((cascades.filter (fun c => decide (c.probability < 0.5))).map
        (fun c => Risk.cascade_uncertainty c.level c.probability "medium")).filter Risk.isCascade =
        (cascades.filter (fun c => decide (c.probability < 0.5))).map
          (fun c => Risk.cascade_uncertainty c.level c.probability "medium") := by
      rw [List.filter_eq_self]
      intro a ha
      obtain ⟨c, _, rfl⟩ := List.mem_map.mp ha
      rfl
    rw [hA]
    split <;> simp [Risk.isCascade]
  · rw [List.countP_append]
    have hA : ((cascades.filter (fun c => decide (c.probability < 0.5))).map
        (fun c => Risk.cascade_uncertainty c.level c.probability "medium")).countP Risk.isPatternRisk = 0 := by
      rw [List.countP_eq_zero]
      intro a ha
      obtain ⟨c, _, rfl⟩ := List.mem_map.mp ha
      simp [Risk.isPatternRisk]
    rw [hA]
    by_cases hex : ∃ p ∈ patterns, p.prediction_accuracy < 0.6
    · rw [if_pos hex]
      obtain ⟨p, hp, hlt⟩ := hex
      have hmem : p ∈ patterns.filter (fun p => decide (p.prediction_accuracy < 0.6)) :=
        List.mem_filter.mpr ⟨hp, by simpa using hlt⟩
      have hne : (patterns.filter (fun p => decide (p.prediction_accuracy < 0.6))).isEmpty = false := by
        rcases hfe : patterns.filter (fun p => decide (p.prediction_accuracy < 0.6)) with _ | _
        · rw [hfe] at hmem; simp at hmem
        · rw [hfe]; rfl
      rw [if_neg (by simp [hne])]
      simp [Risk.isPatternRisk]
    · rw [if_neg hex]
      have hnil : patterns.filter (fun p => decide (p.prediction_accuracy < 0.6)) = [] := by
        rw [List.filter_eq_nil_iff]
        intro p hp
        simp only [decide_eq_true_eq]
        exact fun hlt => hex ⟨p, hp, hlt⟩
      rw [if_pos (by simp [hnil])]
      simp
  · intro hnil
    rw [hnil]
    simp only [List.isEmpty_nil, if_true]
    rw [min_eq_left (by norm_num)]
  · intro hne
    have hfalse : ((cascades.filter (fun c => decide (c.probability < 0.5))).map
        (fun c => Risk.cascade_uncertainty c.level c.probability "medium") ++
        (if (patterns.filter (fun p => decide (p.prediction_accuracy < 0.6))).isEmpty then []
         else [Risk.pattern_uncertainty
            (patterns.filter (fun p => decide (p.prediction_accuracy < 0.6))).length
            "low" "Validate assumptions manually"])).isEmpty = false := by
      cases hl : ((cascades.filter (fun c => decide (c.probability < 0.5))).map
        (fun c => Risk.cascade_uncertainty c.level c.probability "medium") ++
        (if (patterns.filter (fun p => decide (p.prediction_accuracy < 0.6))).isEmpty then []
         else [Risk.pattern_uncertainty
            (patterns.filter (fun p => decide (p.prediction_accuracy < 0.6))).length
            "low" "Validate assumptions manually"])) with
      | nil => exact absurd hl hne
      | cons a l => rfl
    rw [hfalse]
    simp
  · exact min_le_right _ _
  · exact (risk_level_spec_aux _).1
  · exact (risk_level_spec_aux _).2.1
  · exact (risk_level_spec_aux _).2.2

/-- Claim C5 witness: the no-risk floor and the capped score formula at
concrete inputs. -/
theorem assess_risks_spec_witness :
    (assess_risks [] []).risk_score = 0.1 ∧
    (assess_risks [{ level := 1, effect := "e", probability := 0.3, cumulative_confidence := 0.3 }]
      []).risk_score =
      min (((assess_risks
        [{ level := 1, effect := "e", probability := 0.3, cumulative_confidence := 0.3 }]
        []).identified_risks.length : ℚ) * 0.2) 1 :=
  ⟨(assess_risks_spec [] []).2.2.1 rfl,
   (assess_risks_spec
     [{ level := 1, effect := "e", probability := 0.3, cumulative_confidence := 0.3 }]
     []).2.2.2.1 (by norm_num [assess_risks])⟩

/-- The strict key order underlying the canonical serialization:
distinct-keyed sorted pair lists are sorted strictly. -/
def keyLT (a b : String × String) : Prop := a.1 < b.1

instance : IsTotal (String × String) keyLE := ⟨fun x y => le_total x.1 y.1⟩

instance : IsTrans (String × String) keyLE := ⟨fun _ _ _ hab hbc => le_trans hab hbc⟩

instance : IsAntisymm (String × String) keyLT :=
  ⟨fun _ _ hab hba => absurd (lt_trans hab hba) (lt_irrefl _)⟩

/-- A list sorted by `keyLE` whose keys are distinct is sorted by the
strict order `keyLT`. -/
theorem sorted_keyLT_of_sorted_keyLE (l : List (String × String))
    (hs : l.Sorted keyLE) (hnd : (l.map Prod.fst).Nodup) : l.Sorted keyLT := by
  have hne : l.Pairwise (fun a b : String × String => a.1 ≠ b.1) :=
    List.pairwise_map.mp hnd
  exact (hs.and hne).imp (fun hab => lt_of_le_of_ne hab.1 hab.2)

/-- Sorting by key is invariant under permutation when the keys are
distinct: the canonicalization of `json.dumps(..., sort_keys=True)`
erases serialization order. -/
theorem insertionSort_eq_of_perm (s1 s2 : Signature) (hperm : s1.Perm s2)
    (hnd : (s1.map Prod.fst).Nodup) :
    s1.insertionSort keyLE = s2.insertionSort keyLE := by
  have hnd2 : (s2.map Prod.fst).Nodup := ((hperm.map Prod.fst).nodup_iff).mp hnd
  have hp : (s1.insertionSort keyLE).Perm (s2.insertionSort keyLE) :=
    ((s1.perm_insertionSort keyLE).trans hperm).trans (s2.perm_insertionSort keyLE).symm
  have hnd1' : ((s1.insertionSort keyLE).map Prod.fst).Nodup :=
    (((s1.perm_insertionSort keyLE).map Prod.fst).nodup_iff).mpr hnd
  have hnd2' : ((s2.insertionSort keyLE).map Prod.fst).Nodup :=
    (((s2.perm_insertionSort keyLE).map Prod.fst).nodup_iff).mpr hnd2
  exact List.eq_of_perm_of_sorted hp
    (sorted_keyLT_of_sorted_keyLE _ (List.sorted_insertionSort keyLE s1) hnd1')
    (sorted_keyLT_of_sorted_keyLE _ (List.sorted_insertionSort keyLE s2) hnd2')

/-- Claim C2: two problem signatures holding the same key/value pairs in
different serialization order produce the same cache key, on lookup and
on store alike — the key is the hash of the signature serialized with
keys sorted, and lookup and store compute it identically.  `h` stands
for the SHA-256 digest function applied on top of the serialization. -/
theorem cache_key_canonicalization (h : String → String) (s1 s2 : Signature)
    (hperm : s1.Perm s2) (hnd : (s1.map Prod.fst).Nodup) :
    get_cached_solution_key h s1 = get_cached_solution_key h s2 ∧
    cache_solution_key h s1 = cache_solution_key h s2 ∧
    get_cached_solution_key h s1 = cache_solution_key h s1 := by
  have hsort := insertionSort_eq_of_perm s1 s2 hperm hnd
  have hdumps : dumps_sorted s1 = dumps_sorted s2 := by
    simp only [dumps_sorted, hsort]
  exact ⟨congrArg h hdumps, congrArg h hdumps, rfl⟩

/-- Claim C2 witness: a two-field signature and its reversal share one
cache key. -/
theorem cache_key_canonicalization_witness :
    get_cached_solution_key id [("context", "x"), ("area", "db")] =
      get_cached_solution_key id [("area", "db"), ("context", "x")] ∧
    cache_solution_key id [("context", "x"), ("area", "db")] =
      cache_solution_key id [("area", "db"), ("context", "x")] ∧
    get_cached_solution_key id [("context", "x"), ("area", "db")] =
      cache_solution_key id [("context", "x"), ("area", "db")] :=
  cache_key_canonicalization id [("context", "x"), ("area", "db")]
    [("area", "db"), ("context", "x")] (by decide) (by decide)

end CognitiveMemory
